import Mathlib

/-!
Shallow embedding of the clients/reservations CRUD backend
(controllers `clientsController.js`, `reservationsController.js`,
models `Client.js` / `Reservation.js`, middleware `validation.js`,
route wiring `routes/reservations.js`).

Conventions:
* Mongo ObjectId values are strings; `isValidObjectId` embeds
  `mongoose.Types.ObjectId.isValid` (24 hex characters).
* The persistence store is a pair of lists (`Store`).
* Dates are integer timestamps; `now` is passed explicitly.
* bcrypt hashing is abstracted by the `PasswordValue.bcrypt`
  constructor: the schema `pre("save")` hook turns a raw password
  into its hash; `findByIdAndUpdate` writes fields as given and runs
  no save hook, which the embedding mirrors.
* A driver failure thrown by `save` / `findByIdAndUpdate` is modelled
  by an optional `JsError` argument (`none` = the write succeeds).
-/

namespace Crud

/-- `mongoose.Types.ObjectId.isValid` on a 24-character hex string. -/
def isHexChar (c : Char) : Bool :=
  c.isDigit || ('a' ≤ c && c ≤ 'f') || ('A' ≤ c && c ≤ 'F')

/-- Syntactic validity of a Mongo ObjectId (24 hex characters). -/
def isValidObjectId (s : String) : Bool :=
  s.length == 24 && s.data.all isHexChar

/-- A stored password: either still the raw plaintext, or the salted
bcrypt hash produced by the `clientSchema.pre("save")` hook. -/
inductive PasswordValue where
  | raw : String → PasswordValue
  | bcrypt : String → PasswordValue
deriving DecidableEq, Repr

/-- A persisted `Client` document (schema in `Client.js`). -/
structure Client where
  id : String
  name : String
  email : String
  password : PasswordValue
  phone : String
  age : Nat
  createdAt : Nat
deriving DecidableEq, Repr

/-- A client as serialized to callers: `select("-password")` / the
`toJSON` override delete the password key, so it has no password field. -/
structure PublicClient where
  id : String
  name : String
  email : String
  phone : String
  age : Nat
  createdAt : Nat
deriving DecidableEq, Repr

/-- Serialization of a client without its password. -/
def Client.toPublic (c : Client) : PublicClient :=
  { id := c.id, name := c.name, email := c.email, phone := c.phone,
    age := c.age, createdAt := c.createdAt }

/-- The `status` enum of the reservation schema. -/
inductive RStatus where
  | pendiente
  | enProceso
  | completado
  | cancelado
deriving DecidableEq, Repr

/-- The `$in` list used by `deleteClient`: `["Pendiente", "En proceso"]`. -/
def activeStatuses : List RStatus := [RStatus.pendiente, RStatus.enProceso]

/-- A persisted `Reservation` document (schema in `Reservation.js`). -/
structure Reservation where
  id : String
  clientId : String
  vehicle : String
  service : String
  status : RStatus
  scheduledDate : Int
  notes : Option String
deriving DecidableEq, Repr

/-- The two collections of the persistence store. -/
structure Store where
  clients : List Client
  reservations : List Reservation
deriving DecidableEq, Repr

/-- The JSON envelope `{success, message}` together with the HTTP status. -/
structure Response where
  status : Nat
  success : Bool
  message : String
deriving DecidableEq, Repr

/-- An error thrown by the driver (`error.code === 11000` is the
duplicate-key code tested in the catch blocks). -/
structure JsError where
  code : Option Nat
  message : String
deriving DecidableEq, Repr

/-- Response built by both catch blocks for `error.code === 11000` and by
the application-level pre-check: 400, "El email ya está registrado". -/
def dupEmailResp : Response :=
  { status := 400, success := false, message := "El email ya está registrado" }

/-- 400 response for a syntactically invalid client id. -/
def invalidClientIdResp : Response :=
  { status := 400, success := false, message := "ID de cliente no válido" }

/-- 404 response when a client lookup finds nothing. -/
def clientNotFoundResp : Response :=
  { status := 404, success := false, message := "Cliente no encontrado" }

/-- 400 response of the future-date check. -/
def invalidDateResp : Response :=
  { status := 400, success := false, message := "La fecha programada debe ser en el futuro" }

/-- 400 response of the active-reservations guard in `deleteClient`. -/
def hasActiveResp : Response :=
  { status := 400, success := false,
    message := "No se puede eliminar el cliente porque tiene reservas activas" }

/-- 400 response of `handleValidationErrors` in `validation.js`. -/
def validationErrorsResp : Response :=
  { status := 400, success := false, message := "Errores de validación" }

/-! ## Clients controller -/

/-- Request body of `POST /clients` (after the validation middleware). -/
structure CreateClientBody where
  name : String
  email : String
  password : String
  phone : String
  age : Nat
deriving DecidableEq, Repr

/-- `createClient` (clientsController.js:84-126).
Pre-checks `findOne({email})`; on pass, `new Client(...).save()` runs the
`pre("save")` hook, which hashes the (new, hence modified) password, and
the schema `lowercase` setter on the email.  A driver error thrown by
`save` is the `saveErr` argument and lands in the catch block, which maps
code 11000 to the duplicate-email 400 and everything else to a 500. -/
def createClient (db : List Client) (newId : String) (now : Nat)
    (body : CreateClientBody) (saveErr : Option JsError) :
    Response × List Client :=
  match db.find? (fun c => c.email == body.email) with
  | some _ => (dupEmailResp, db)
  | none =>
    match saveErr with
    | some e =>
      if e.code == some 11000 then (dupEmailResp, db)
      else ({ status := 500, success := false, message := "Error al crear el cliente" }, db)
    | none =>
      let newClient : Client :=
        { id := newId, name := body.name, email := body.email.toLower,
          password := PasswordValue.bcrypt body.password,
          phone := body.phone, age := body.age, createdAt := now }
      ({ status := 201, success := true, message := "Cliente creado exitosamente" },
       db ++ [newClient])

/-- Partial-update body of `PUT /clients/:id`: every field optional. -/
structure ClientPatch where
  name : Option String := none
  email : Option String := none
  password : Option String := none
  phone : Option String := none
  age : Option Nat := none
deriving DecidableEq, Repr

/-- The `if (updateData.email) { findOne({email, _id: {$ne: id}}) }`
pre-check of `updateClient`; an empty string is falsy in JS, so it skips
the block. -/
def updateEmailConflict (db : List Client) (id : String) (patch : ClientPatch) : Bool :=
  match patch.email with
  | some e => if e.isEmpty then false else db.any (fun c => c.email == e && c.id != id)
  | none => false

/-- Field application of `findByIdAndUpdate(id, updateData)` on a client:
present fields are written as given (the email `lowercase` setter runs on
update paths; no `pre("save")` hook runs, so a patched password stays raw). -/
def applyClientPatch (patch : ClientPatch) (c : Client) : Client :=
  { c with
    name := patch.name.getD c.name
    email := (patch.email.map String.toLower).getD c.email
    password := (patch.password.map PasswordValue.raw).getD c.password
    phone := patch.phone.getD c.phone
    age := patch.age.getD c.age }

/-- `updateClient` (clientsController.js:129-190).  Returns the response,
the updated collection, and the `select("-password")` payload. -/
def updateClient (db : List Client) (id : String) (patch : ClientPatch)
    (saveErr : Option JsError) :
    Response × List Client × Option PublicClient :=
  if ¬ isValidObjectId id then (invalidClientIdResp, db, none)
  else if updateEmailConflict db id patch then (dupEmailResp, db, none)
  else
    match saveErr with
    | some e =>
      if e.code == some 11000 then (dupEmailResp, db, none)
      else ({ status := 500, success := false, message := "Error al actualizar el cliente" },
            db, none)
    | none =>
      match db.find? (fun c => c.id == id) with
      | none => (clientNotFoundResp, db, none)
      | some c =>
        ({ status := 200, success := true, message := "Cliente actualizado exitosamente" },
         db.map (fun x => if x.id == id then applyClientPatch patch x else x),
         some (applyClientPatch patch c).toPublic)

/-- The filter `{clientId: id, status: {$in: ["Pendiente", "En proceso"]}}`
used by the `countDocuments` call of `deleteClient`. -/
def isActiveFor (id : String) (r : Reservation) : Bool :=
  r.clientId == id && activeStatuses.contains r.status

/-- `deleteClient` (clientsController.js:193-238): counts reservations of
the client whose status is in `["Pendiente", "En proceso"]`, refuses the
deletion when the count is positive, otherwise `findByIdAndDelete`. -/
def deleteClient (s : Store) (id : String) : Response × Store :=
  if ¬ isValidObjectId id then (invalidClientIdResp, s)
  else
    let activeReservations := (s.reservations.filter (isActiveFor id)).length
    if activeReservations > 0 then (hasActiveResp, s)
    else
      match s.clients.find? (fun c => c.id == id) with
      | none => (clientNotFoundResp, s)
      | some _ =>
        ({ status := 200, success := true, message := "Cliente eliminado exitosamente" },
         { s with clients := s.clients.filter (fun c => c.id != id) })

/-- `getClientById` (clientsController.js:50-81). -/
def getClientById (db : List Client) (id : String) :
    Response × Option PublicClient :=
  if ¬ isValidObjectId id then (invalidClientIdResp, none)
  else
    match db.find? (fun c => c.id == id) with
    | none => (clientNotFoundResp, none)
    | some c => ({ status := 200, success := true, message := "" }, some c.toPublic)

/-! ## Reservations controller -/

/-- Request body of `POST /reservations`.  The validation middleware
accepts an optional `status`; the controller destructures only
`{clientId, vehicle, service, scheduledDate, notes}` from the body. -/
structure CreateReservationBody where
  clientId : String
  vehicle : String
  service : String
  status : Option RStatus := none
  scheduledDate : Int
  notes : Option String := none
deriving DecidableEq, Repr

/-- `createReservation` (reservationsController.js:117-171): ObjectId
syntax check, `Client.findById` existence check, strict future-date
check, then `new Reservation(...)` — the schema default fills in the
status, since the controller passes none. -/
def createReservation (s : Store) (now : Int) (newId : String)
    (body : CreateReservationBody) : Response × Store :=
  if ¬ isValidObjectId body.clientId then (invalidClientIdResp, s)
  else
    match s.clients.find? (fun c => c.id == body.clientId) with
    | none => (clientNotFoundResp, s)
    | some _ =>
      if body.scheduledDate ≤ now then (invalidDateResp, s)
      else
        let newReservation : Reservation :=
          { id := newId, clientId := body.clientId, vehicle := body.vehicle,
            service := body.service, status := RStatus.pendiente,
            scheduledDate := body.scheduledDate, notes := body.notes }
        ({ status := 201, success := true, message := "Reserva creada exitosamente" },
         { s with reservations := s.reservations ++ [newReservation] })

/-- Partial-update body of `PUT /reservations/:id`. -/
structure ReservationPatch where
  clientId : Option String := none
  vehicle : Option String := none
  service : Option String := none
  status : Option RStatus := none
  scheduledDate : Option Int := none
  notes : Option String := none
deriving DecidableEq, Repr

/-- The `if (updateData.clientId) {...}` block of `updateReservation`:
syntax check then existence check on the patched client reference (an
empty string is falsy in JS and skips the block).  `none` means the
block raised no early return. -/
def reservationClientCheck (s : Store) (patch : ReservationPatch) : Option Response :=
  match patch.clientId with
  | some cid =>
    if cid.isEmpty then none
    else if ¬ isValidObjectId cid then some invalidClientIdResp
    else if (s.clients.find? (fun c => c.id == cid)).isNone then some clientNotFoundResp
    else none
  | none => none

/-- Field application of `findByIdAndUpdate` on a reservation. -/
def applyReservationPatch (patch : ReservationPatch) (r : Reservation) : Reservation :=
  { r with
    clientId := patch.clientId.getD r.clientId
    vehicle := patch.vehicle.getD r.vehicle
    service := patch.service.getD r.service
    status := patch.status.getD r.status
    scheduledDate := patch.scheduledDate.getD r.scheduledDate
    notes := match patch.notes with | some n => some n | none => r.notes }

/-- 400 response for a syntactically invalid reservation id. -/
def invalidReservationIdResp : Response :=
  { status := 400, success := false, message := "ID de reserva no válido" }

/-- 404 response when a reservation lookup finds nothing. -/
def reservationNotFoundResp : Response :=
  { status := 404, success := false, message := "Reserva no encontrada" }

/-- `updateReservation` (reservationsController.js:174-240): id syntax
check, the optional client-reference re-check, the future-date re-check
only when the patch carries `scheduledDate`, then `findByIdAndUpdate`. -/
def updateReservation (s : Store) (now : Int) (id : String)
    (patch : ReservationPatch) : Response × Store × Option Reservation :=
  if ¬ isValidObjectId id then (invalidReservationIdResp, s, none)
  else
    match reservationClientCheck s patch with
    | some resp => (resp, s, none)
    | none =>
      if (match patch.scheduledDate with
          | some d => decide (d ≤ now)
          | none => false) then (invalidDateResp, s, none)
      else
        match s.reservations.find? (fun r => r.id == id) with
        | none => (reservationNotFoundResp, s, none)
        | some r =>
          ({ status := 200, success := true, message := "Reserva actualizada exitosamente" },
           { s with reservations :=
               s.reservations.map (fun x => if x.id == id then applyReservationPatch patch x else x) },
           some (applyReservationPatch patch r))

/-! ## Pagination (query layer) -/

/-- The pagination summary object returned by the list endpoints. -/
structure Pagination where
  currentPage : Nat
  totalPages : Nat
  totalRecords : Nat
  hasNext : Bool
  hasPrev : Bool
deriving DecidableEq, Repr

/-- Boolean leading-segment test on character lists. -/
def leadsWith : List Char → List Char → Bool
  | [], _ => true
  | _ :: _, [] => false
  | a :: as, b :: bs => a == b && leadsWith as bs

/-- Boolean contiguous-substring test on character lists. -/
def occursWithin (pat : List Char) : List Char → Bool
  | [] => leadsWith pat []
  | b :: bs => leadsWith pat (b :: bs) || occursWithin pat bs

/-- `{$regex: pat, $options: "i"}` on a plain pattern: case-insensitive
substring containment. -/
def containsCI (hay pat : String) : Bool :=
  occursWithin pat.toLower.data hay.toLower.data

/-- The filter object built by `getAllClients` from the optional `name`
and `email` query parameters. -/
def matchesClientFilters (nameF emailF : Option String) (c : Client) : Bool :=
  (match nameF with | some p => containsCI c.name p | none => true) &&
  (match emailF with | some p => containsCI c.email p | none => true)

/-- Insertion step of a stable sort with Boolean precedence `le`. -/
def insertLe (le : α → α → Bool) (a : α) : List α → List α
  | [] => [a]
  | x :: xs => if le a x then a :: x :: xs else x :: insertLe le a xs

/-- Stable insertion sort with Boolean precedence `le`, modelling the
store's `sort(...)` stage. -/
def sortLe (le : α → α → Bool) : List α → List α
  | [] => []
  | x :: xs => insertLe le x (sortLe le xs)

/-- `sort({createdAt: -1})`: newest first. -/
def sortClientsByCreatedDesc (l : List Client) : List Client :=
  sortLe (fun a b => b.createdAt ≤ a.createdAt) l

/-- `sort({scheduledDate: 1})`: soonest first. -/
def sortReservationsByDateAsc (l : List Reservation) : List Reservation :=
  sortLe (fun a b => decide (a.scheduledDate ≤ b.scheduledDate)) l

/-- `getAllClients` (clientsController.js:5-47):
`skip((page-1)*limit)`, `limit(limit)`, sort newest first, plus the
pagination summary `{currentPage, totalPages = ceil(total/limit),
totalClients, hasNext = page*limit < total, hasPrev = page > 1}`. -/
def getAllClients (db : List Client) (page limit : Nat)
    (nameF emailF : Option String) :
    Response × List PublicClient × Pagination :=
  let filtered := db.filter (matchesClientFilters nameF emailF)
  let skip := (page - 1) * limit
  let pageData := (((sortClientsByCreatedDesc filtered).drop skip).take limit).map Client.toPublic
  let total := filtered.length
  ({ status := 200, success := true, message := "" },
   pageData,
   { currentPage := page, totalPages := (total + limit - 1) / limit,
     totalRecords := total,
     hasNext := decide (page * limit < total), hasPrev := decide (page > 1) })

/-- `getReservationsByClient` (reservationsController.js:277-331): id
syntax check, client existence check, then the client's reservations
optionally filtered by status, sorted by scheduled date, paginated. -/
def getReservationsByClient (s : Store) (clientId : String)
    (statusF : Option RStatus) (page limit : Nat) :
    Response × List Reservation × Option Pagination :=
  if ¬ isValidObjectId clientId then (invalidClientIdResp, [], none)
  else
    match s.clients.find? (fun c => c.id == clientId) with
    | none => (clientNotFoundResp, [], none)
    | some _ =>
      let filtered := s.reservations.filter
        (fun r => r.clientId == clientId &&
          (match statusF with | some st => r.status == st | none => true))
      let skip := (page - 1) * limit
      let pageData := ((sortReservationsByDateAsc filtered).drop skip).take limit
      let total := filtered.length
      ({ status := 200, success := true, message := "" },
       pageData,
       some { currentPage := page, totalPages := (total + limit - 1) / limit,
              totalRecords := total,
              hasNext := decide (page * limit < total), hasPrev := decide (page > 1) })

/-! ## Route wiring of `GET /reservations/client/:clientId` -/

/-- The route parameters express extracts for a request; a parameter the
route pattern does not declare is absent. -/
structure ReqParams where
  id : Option String := none
  clientId : Option String := none
deriving DecidableEq, Repr

/-- `validateId` (validation.js:197-203): `param("id").isMongoId()` then
`handleValidationErrors`.  An absent field makes the validator fail. -/
def validateIdPasses (p : ReqParams) : Bool :=
  match p.id with
  | some s => isValidObjectId s
  | none => false

/-- The middleware chain of
`router.get("/client/:clientId", validateId, getReservationsByClient)`
(reservations.js:467): the route pattern binds only `clientId`, and
`validateId` inspects `req.params.id`. -/
def clientReservationsRoute (s : Store) (clientId : String)
    (statusF : Option RStatus) (page limit : Nat) :
    Response × List Reservation × Option Pagination :=
  let params : ReqParams := { id := none, clientId := some clientId }
  if ¬ validateIdPasses params then (validationErrorsResp, [], none)
  else getReservationsByClient s clientId statusF page limit

/-! ## Sample data for concrete instances -/

/-- A valid ObjectId literal. -/
def oidA : String := "aaaaaaaaaaaaaaaaaaaaaaaa"

/-- A second valid ObjectId literal. -/
def oidB : String := "bbbbbbbbbbbbbbbbbbbbbbbb"

/-- A third valid ObjectId literal. -/
def oidC : String := "cccccccccccccccccccccccc"

/-- A sample stored client. -/
def cAna : Client :=
  { id := oidA, name := "Ana Ruiz", email := "ana@x.com",
    password := PasswordValue.bcrypt "123456", phone := "+573000000",
    age := 25, createdAt := 1 }

/-! ## Claims -/

/-- C1: with a client of email `e` already stored, creating a second
client with email `e` fails with the duplicate-email 400 and adds no
record; an update fails with the duplicate-email pre-check only when
some client other than the one being updated (identity differing from
the excluded id) holds the patched email; and a client updating to its
own current email is accepted (200). -/
theorem c1_duplicate_email_guard :
    (∀ (db : List Client) (newId : String) (now : Nat) (body : CreateClientBody)
        (saveErr : Option JsError),
      (∃ c ∈ db, c.email = body.email) →
      (createClient db newId now body saveErr).1 = dupEmailResp ∧
      (createClient db newId now body saveErr).2 = db) ∧
    (∀ (db : List Client) (id : String) (patch : ClientPatch),
      (updateClient db id patch none).1 = dupEmailResp →
      ∃ e, patch.email = some e ∧ ∃ c ∈ db, c.email = e ∧ c.id ≠ id) ∧
    (∀ (db : List Client) (id : String) (patch : ClientPatch) (c : Client),
      isValidObjectId id = true → c ∈ db → c.id = id →
      patch.email = some c.email →
      (∀ c' ∈ db, c'.email = c.email → c'.id = id) →
      (updateClient db id patch none).1.status = 200) := by
  refine ⟨?_, ?_, ?_⟩
  · rintro db newId now body saveErr ⟨c, hc, he⟩
    cases hfind : db.find? (fun c => c.email == body.email) with
    | none =>
      have := List.find?_eq_none.mp hfind c hc
      simp [he] at this
    | some c' => simp [createClient, hfind]
  · intro db id patch h
    by_cases hid : isValidObjectId id
    · rw [updateClient] at h
      simp only [hid, not_true_eq_false, if_false, Bool.not_true] at h
      by_cases hconf : updateEmailConflict db id patch
      · unfold updateEmailConflict at hconf
        cases hpe : patch.email with
        | none => rw [hpe] at hconf; simp at hconf
        | some e =>
          rw [hpe] at hconf
          by_cases hemp : e.isEmpty
          · simp [hemp] at hconf
          · simp only [hemp, if_false, Bool.false_eq_true, List.any_eq_true,
              Bool.and_eq_true, beq_iff_eq, bne_iff_ne] at hconf
            obtain ⟨c, hc, hce, hcd⟩ := hconf
            exact ⟨e, rfl, c, hc, hce, hcd⟩
      · simp only [hconf, if_false, Bool.false_eq_true] at h
        cases hfind : db.find? (fun c => c.id == id) with
        | none =>
          rw [hfind] at h
          simp [clientNotFoundResp, dupEmailResp] at h
        | some c =>
          rw [hfind] at h
          simp [dupEmailResp] at h
    · rw [updateClient] at h
      simp only [hid, not_false_eq_true, if_true, Bool.not_false] at h
      simp [invalidClientIdResp, dupEmailResp] at h
  · intro db id patch c hid hc hcid hpe huniq
    have hconf : updateEmailConflict db id patch = false := by
      unfold updateEmailConflict
      rw [hpe]
      by_cases hemp : c.email.isEmpty
      · simp [hemp]
      · simp only [hemp, if_false, Bool.false_eq_true, List.any_eq_false,
          Bool.and_eq_true, beq_iff_eq, bne_iff_ne, not_and]
        intro c' hc' he'
        simp [huniq c' hc' he']
    cases hfind : db.find? (fun c => c.id == id) with
    | none =>
      have := List.find?_eq_none.mp hfind c hc
      simp [hcid] at this
    | some c' =>
      rw [updateClient]
      simp [hid, hconf, hfind]

/-- Witness for C1: both a concrete rejected duplicate creation and a
concrete accepted own-email update. -/
theorem c1_duplicate_email_guard_witness :
    (createClient [cAna] oidB 2
      { name := "Bob", email := "ana@x.com", password := "123456",
        phone := "+573000001", age := 30 } none).1 = dupEmailResp ∧
    (updateClient [cAna] oidA { email := some "ana@x.com" } none).1.status = 200 :=
  ⟨(c1_duplicate_email_guard.1 [cAna] oidB 2
      { name := "Bob", email := "ana@x.com", password := "123456",
        phone := "+573000001", age := 30 } none ⟨cAna, by decide, by decide⟩).1,
   c1_duplicate_email_guard.2.2 [cAna] oidA { email := some "ana@x.com" } cAna
     (by decide) (by decide) (by decide) (by decide) (by decide)⟩

/-- A sample pending reservation owned by `cAna`. -/
def rPend : Reservation :=
  { id := oidC, clientId := oidA, vehicle := "Toyota Corolla 2020",
    service := "Cambio de aceite", status := RStatus.pendiente,
    scheduledDate := 100, notes := none }

/-- A store holding `cAna` and no reservations. -/
def storeAnaNoRes : Store := { clients := [cAna], reservations := [] }

/-- A store holding `cAna` and one pending reservation of hers. -/
def storeAnaPend : Store := { clients := [cAna], reservations := [rPend] }

/-- C2: deleting a stored client succeeds (200) when it owns no
reservation with status Pendiente or En proceso, and fails with the
active-reservations 400 — leaving the whole store unchanged — when it
owns at least one. -/
theorem c2_delete_client_guard (s : Store) (c : Client)
    (hc : c ∈ s.clients) (hid : isValidObjectId c.id = true) :
    ((s.reservations.filter (isActiveFor c.id)).length = 0 →
      (deleteClient s c.id).1.status = 200) ∧
    (0 < (s.reservations.filter (isActiveFor c.id)).length →
      (deleteClient s c.id).1 = hasActiveResp ∧ (deleteClient s c.id).2 = s) := by
  constructor
  · intro hzero
    cases hfind : s.clients.find? (fun x => x.id == c.id) with
    | none =>
      have := List.find?_eq_none.mp hfind c hc
      simp at this
    | some c' =>
      rw [deleteClient]
      simp [hid, hzero, hfind]
  · intro hpos
    rw [deleteClient]
    simp [hid, hpos]

/-- Witness for C2: deleting `cAna` succeeds on the reservation-free
store and is refused on the store with her pending reservation. -/
theorem c2_delete_client_guard_witness :
    (deleteClient storeAnaNoRes cAna.id).1.status = 200 ∧
    (deleteClient storeAnaPend cAna.id).1 = hasActiveResp :=
  ⟨(c2_delete_client_guard storeAnaNoRes cAna (by decide) (by decide)).1 (by decide),
   ((c2_delete_client_guard storeAnaPend cAna (by decide) (by decide)).2 (by decide)).1⟩

/-- C3: reservation creation fails with the invalid-reference 400 when
the client identifier is syntactically invalid, and with the 404
client-not-found response when it is valid but matches no stored
client; in both cases the store is unchanged. -/
theorem c3_reservation_client_reference (s : Store) (now : Int)
    (newId : String) (body : CreateReservationBody) :
    (isValidObjectId body.clientId = false →
      (createReservation s now newId body).1 = invalidClientIdResp ∧
      (createReservation s now newId body).2 = s) ∧
    (isValidObjectId body.clientId = true →
      (∀ c ∈ s.clients, c.id ≠ body.clientId) →
      (createReservation s now newId body).1 = clientNotFoundResp ∧
      (createReservation s now newId body).2 = s) := by
  constructor
  · intro hbad
    simp [createReservation, hbad]
  · intro hok hnone
    have hfind : s.clients.find? (fun c => c.id == body.clientId) = none := by
      rw [List.find?_eq_none]
      intro c hc
      simp [hnone c hc]
    simp [createReservation, hok, hfind]

/-- Witness for C3: a malformed identifier and a well-formed but
unknown identifier, both against the sample store. -/
theorem c3_reservation_client_reference_witness :
    (createReservation storeAnaNoRes 0 oidC
      { clientId := "zz", vehicle := "Toyota Corolla 2020",
        service := "Cambio de aceite", scheduledDate := 100 }).1 = invalidClientIdResp ∧
    (createReservation storeAnaNoRes 0 oidC
      { clientId := oidB, vehicle := "Toyota Corolla 2020",
        service := "Cambio de aceite", scheduledDate := 100 }).1 = clientNotFoundResp :=
  ⟨((c3_reservation_client_reference storeAnaNoRes 0 oidC
      { clientId := "zz", vehicle := "Toyota Corolla 2020",
        service := "Cambio de aceite", scheduledDate := 100 }).1 (by decide)).1,
   ((c3_reservation_client_reference storeAnaNoRes 0 oidC
      { clientId := oidB, vehicle := "Toyota Corolla 2020",
        service := "Cambio de aceite", scheduledDate := 100 }).2 (by decide) (by decide)).1⟩

/-- C4: with a resolvable client reference, reservation creation fails
with the future-date 400 exactly when the scheduled date is at or
before `now`; an update whose patch carries a date fails with that
response exactly when the patched date is at or before `now` (given the
client-reference block raised no early return); and an update whose
patch omits the date is evaluated identically at every `now`. -/
theorem c4_future_date_check :
    (∀ (s : Store) (now : Int) (newId : String) (body : CreateReservationBody),
      isValidObjectId body.clientId = true →
      (∃ c ∈ s.clients, c.id = body.clientId) →
      ((createReservation s now newId body).1 = invalidDateResp ↔
        body.scheduledDate ≤ now)) ∧
    (∀ (s : Store) (now : Int) (id : String) (patch : ReservationPatch) (d : Int),
      isValidObjectId id = true →
      reservationClientCheck s patch = none →
      patch.scheduledDate = some d →
      ((updateReservation s now id patch).1 = invalidDateResp ↔ d ≤ now)) ∧
    (∀ (s : Store) (now now' : Int) (id : String) (patch : ReservationPatch),
      patch.scheduledDate = none →
      updateReservation s now id patch = updateReservation s now' id patch) := by
  refine ⟨?_, ?_, ?_⟩
  · rintro s now newId body hok ⟨c, hc, hcid⟩
    cases hfind : s.clients.find? (fun c => c.id == body.clientId) with
    | none =>
      have := List.find?_eq_none.mp hfind c hc
      simp [hcid] at this
    | some c' =>
      rw [createReservation]
      by_cases hd : body.scheduledDate ≤ now
      · simp [hok, hfind, hd]
      · simp [hok, hfind, hd, invalidDateResp]
  · intro s now id patch d hid hcheck hpd
    rw [updateReservation]
    by_cases hd : d ≤ now
    · simp [hid, hcheck, hpd, hd]
    · simp only [hid, not_true_eq_false, if_false, Bool.not_true, hcheck, hpd,
        decide_eq_true_eq]
      rw [if_neg (by simpa using hd)]
      cases hfind : s.reservations.find? (fun r => r.id == id) with
      | none => simp [hfind, reservationNotFoundResp, invalidDateResp, hd]
      | some r => simp [hfind, invalidDateResp, hd]
  · intro s now now' id patch hpd
    simp only [updateReservation, hpd]

/-- Witness for C4: a past date is rejected on create and on a
date-carrying update, a future date is accepted, and a dateless patch
is insensitive to the clock. -/
theorem c4_future_date_check_witness :
    ((createReservation storeAnaPend 100 oidB
      { clientId := oidA, vehicle := "Toyota Corolla 2020",
        service := "Cambio de aceite", scheduledDate := 99 }).1 = invalidDateResp ↔
      (99 : Int) ≤ 100) ∧
    ((updateReservation storeAnaPend 100 oidC
      { scheduledDate := some 300 }).1 = invalidDateResp ↔ (300 : Int) ≤ 100) ∧
    updateReservation storeAnaPend 5 oidC { notes := some "x" } =
      updateReservation storeAnaPend 7 oidC { notes := some "x" } :=
  ⟨c4_future_date_check.1 storeAnaPend 100 oidB
      { clientId := oidA, vehicle := "Toyota Corolla 2020",
        service := "Cambio de aceite", scheduledDate := 99 }
      (by decide) ⟨cAna, by decide, by decide⟩,
   c4_future_date_check.2.1 storeAnaPend 100 oidC
      { scheduledDate := some 300 } 300 (by decide) (by decide) rfl,
   c4_future_date_check.2.2 storeAnaPend 5 7 oidC { notes := some "x" } rfl⟩

/-- C5 (code bug evidence): creation stores the bcrypt hash of the
supplied password, but a partial update whose patch carries a password
goes through `findByIdAndUpdate`, which runs no `pre("save")` hook, so
the updated record keeps the raw plaintext — which is distinct from the
hashed form. -/
theorem c5_password_hashing_on_update :
    (∃ c, (createClient [] oidA 1
        { name := "Ana Ruiz", email := "ana@x.com", password := "123456",
          phone := "+573000000", age := 25 } none).2 = [c] ∧
        c.password = PasswordValue.bcrypt "123456") ∧
    (updateClient [cAna] oidA { password := some "newpass123" } none).2.1 =
      [{ cAna with password := PasswordValue.raw "newpass123" }] ∧
    PasswordValue.raw "newpass123" ≠ PasswordValue.bcrypt "newpass123" := by
  refine ⟨⟨_, rfl, rfl⟩, by decide, by decide⟩

/-- C6 counterexample: a valid create request that explicitly supplies
status "Completado" succeeds, yet the stored reservation's status is
Pendiente, not the supplied one — the controller never reads the
body's status field. -/
theorem c6_supplied_status_ignored :
    (createReservation storeAnaNoRes 0 oidC
      { clientId := oidA, vehicle := "Toyota Corolla 2020",
        service := "Cambio de aceite", status := some RStatus.completado,
        scheduledDate := 100 }).1.status = 201 ∧
    ∃ r, (createReservation storeAnaNoRes 0 oidC
      { clientId := oidA, vehicle := "Toyota Corolla 2020",
        service := "Cambio de aceite", status := some RStatus.completado,
        scheduledDate := 100 }).2.reservations = [r] ∧
      r.status = RStatus.pendiente ∧ r.status ≠ RStatus.completado := by
  exact ⟨by decide, ⟨_, rfl, rfl, by decide⟩⟩

/-- C6 amended: every reservation stored by a successful create has
status Pendiente, whether or not the request supplied a status. -/
theorem c6_created_status_pendiente (s : Store) (now : Int) (newId : String)
    (body : CreateReservationBody)
    (h : (createReservation s now newId body).1.status = 201) :
    ∃ r, (createReservation s now newId body).2.reservations =
        s.reservations ++ [r] ∧ r.status = RStatus.pendiente := by
  by_cases hv : isValidObjectId body.clientId
  · cases hfind : s.clients.find? (fun c => c.id == body.clientId) with
    | none =>
      rw [createReservation] at h
      simp [hv, hfind, clientNotFoundResp] at h
    | some c =>
      by_cases hd : body.scheduledDate ≤ now
      · rw [createReservation] at h
        simp [hv, hfind, hd, invalidDateResp] at h
      · rw [createReservation]
        simp [hv, hfind, hd]
  · rw [createReservation] at h
    simp [hv, invalidClientIdResp] at h

/-- Witness for C6 amended: a concrete successful creation stores a
Pendiente reservation. -/
theorem c6_created_status_pendiente_witness :
    ∃ r, (createReservation storeAnaNoRes 0 oidC
      { clientId := oidA, vehicle := "Toyota Corolla 2020",
        service := "Cambio de aceite", scheduledDate := 100 }).2.reservations =
        storeAnaNoRes.reservations ++ [r] ∧ r.status = RStatus.pendiente :=
  c6_created_status_pendiente storeAnaNoRes 0 oidC
    { clientId := oidA, vehicle := "Toyota Corolla 2020",
      service := "Cambio de aceite", scheduledDate := 100 } (by decide)

/-- Auxiliary: `find?` over an append whose first part contains no hit. -/
theorem find?_append_of_none {α : Type} {p : α → Bool} {l₁ l₂ : List α}
    (h : l₁.find? p = none) : (l₁ ++ l₂).find? p = l₂.find? p := by
  induction l₁ with
  | nil => rfl
  | cons a as ih =>
    rw [List.find?_cons] at h
    cases hp : p a with
    | true => rw [hp] at h; exact absurd h (by simp)
    | false =>
      rw [hp] at h
      rw [List.cons_append, List.find?_cons, hp]
      exact ih h

/-- C7: creating a client and fetching it by id returns exactly the
stored record stripped of its password (the serialization has no
password field); and an update whose patch carries only the phone field
leaves every client's name, email and age unchanged. -/
theorem c7_roundtrip_and_phone_frame :
    (∀ (db : List Client) (newId : String) (now : Nat) (body : CreateClientBody),
      isValidObjectId newId = true →
      (∀ c ∈ db, c.email ≠ body.email) →
      (∀ c ∈ db, c.id ≠ newId) →
      ∃ c, (createClient db newId now body none).2 = db ++ [c] ∧
        c.name = body.name ∧ c.email = body.email.toLower ∧
        c.phone = body.phone ∧ c.age = body.age ∧
        getClientById (createClient db newId now body none).2 newId =
          ({ status := 200, success := true, message := "" }, some c.toPublic)) ∧
    (∀ (db : List Client) (id : String) (p : String),
      ((updateClient db id { phone := some p } none).2.1).map
          (fun c => (c.name, c.email, c.age)) =
        db.map (fun c => (c.name, c.email, c.age))) := by
  constructor
  · intro db newId now body hvalid hemail hfresh
    have hfindEmail : db.find? (fun c => c.email == body.email) = none := by
      rw [List.find?_eq_none]
      intro c hc
      simp [hemail c hc]
    have hfindId : db.find? (fun c => c.id == newId) = none := by
      rw [List.find?_eq_none]
      intro c hc
      simp [hfresh c hc]
    refine ⟨{ id := newId, name := body.name, email := body.email.toLower,
              password := PasswordValue.bcrypt body.password, phone := body.phone,
              age := body.age, createdAt := now },
            by rw [createClient]; simp [hfindEmail], rfl, rfl, rfl, rfl, ?_⟩
    rw [createClient]
    simp only [hfindEmail]
    rw [getClientById]
    simp only [hvalid, not_true_eq_false, if_false, Bool.not_true]
    rw [find?_append_of_none hfindId]
    simp [List.find?_cons]
  · intro db id p
    rw [updateClient]
    by_cases hv : isValidObjectId id
    · have hconf : updateEmailConflict db id { phone := some p } = false := rfl
      simp only [hv, not_true_eq_false, if_false, Bool.not_true, hconf,
        Bool.false_eq_true]
      cases hfind : db.find? (fun c => c.id == id) with
      | none => simp
      | some c =>
        simp only [List.map_map]
        refine List.map_congr_left ?_
        intro x hx
        by_cases hxid : x.id = id
        · simp [hxid, applyClientPatch]
        · simp [hxid]
    · simp [hv]

/-- Witness for C7: the concrete round trip of the sample creation. -/
theorem c7_roundtrip_and_phone_frame_witness :
    ∃ c, (createClient [] oidA 1
        { name := "Ana Ruiz", email := "ana@x.com", password := "123456",
          phone := "+573000000", age := 25 } none).2 = [] ++ [c] ∧
      c.name = "Ana Ruiz" ∧ c.email = "ana@x.com".toLower ∧
      c.phone = "+573000000" ∧ c.age = 25 ∧
      getClientById (createClient [] oidA 1
        { name := "Ana Ruiz", email := "ana@x.com", password := "123456",
          phone := "+573000000", age := 25 } none).2 oidA =
        ({ status := 200, success := true, message := "" }, some c.toPublic) :=
  c7_roundtrip_and_phone_frame.1 [] oidA 1
    { name := "Ana Ruiz", email := "ana@x.com", password := "123456",
      phone := "+573000000", age := 25 } (by decide) (by decide) (by decide)

/-- The i-th sample client; creation times decrease with `i`, so the
list is already in the newest-first order used by the query layer. -/
def sampleClient (i : Nat) : Client :=
  { id := oidA, name := "Cliente" ++ toString i,
    email := "c" ++ toString i ++ "@x.com",
    password := PasswordValue.bcrypt "123456", phone := "+573000000",
    age := 20 + i, createdAt := 100 - i }

/-- Twenty-five matching sample clients. -/
def sampleDb : List Client := (List.range 25).map sampleClient

/-- C8: the returned slice is the sorted matching records from offset
`(page-1)*limit`, holds at most `limit` records, and the summary
satisfies `totalPages = ceil(total/limit)`, `hasNext = page*limit <
total`, `hasPrev = page > 1`; concretely, over 25 matching records with
limit 10, page 1 is records 1-10 with next but no previous page, and
page 3 is records 21-25 with a previous but no next page, 3 pages total. -/
theorem c8_pagination :
    (∀ (db : List Client) (page limit : Nat) (nameF emailF : Option String),
      0 < page → 0 < limit →
      (getAllClients db page limit nameF emailF).2.1 =
        (((sortClientsByCreatedDesc
            (db.filter (matchesClientFilters nameF emailF))).drop
              ((page - 1) * limit)).take limit).map Client.toPublic ∧
      (getAllClients db page limit nameF emailF).2.1.length ≤ limit ∧
      (getAllClients db page limit nameF emailF).2.2.totalPages =
        (db.filter (matchesClientFilters nameF emailF)).length ⌈/⌉ limit ∧
      ((getAllClients db page limit nameF emailF).2.2.hasNext = true ↔
        page * limit < (db.filter (matchesClientFilters nameF emailF)).length) ∧
      ((getAllClients db page limit nameF emailF).2.2.hasPrev = true ↔ 1 < page)) ∧
    (getAllClients sampleDb 1 10 none none).2.1 =
      (sampleDb.take 10).map Client.toPublic ∧
    (getAllClients sampleDb 1 10 none none).2.2 =
      { currentPage := 1, totalPages := 3, totalRecords := 25,
        hasNext := true, hasPrev := false } ∧
    (getAllClients sampleDb 3 10 none none).2.1 =
      ((sampleDb.drop 20).take 10).map Client.toPublic ∧
    (getAllClients sampleDb 3 10 none none).2.2 =
      { currentPage := 3, totalPages := 3, totalRecords := 25,
        hasNext := false, hasPrev := true } := by
  refine ⟨?_, by decide, by decide, by decide, by decide⟩
  intro db page limit nameF emailF hpage hlimit
  refine ⟨rfl, ?_, ?_, ?_, ?_⟩
  · simp [getAllClients, List.length_take]
  · rw [Nat.ceilDiv_eq_add_pred_div]
    rfl
  · simp [getAllClients]
  · simp [getAllClients]

/-- Witness for C8: the general slice law applied at the concrete
25-record store, page 3, limit 10. -/
theorem c8_pagination_witness :
    (getAllClients sampleDb 3 10 none none).2.1 =
      (((sortClientsByCreatedDesc
          (sampleDb.filter (matchesClientFilters none none))).drop 20).take 10).map
        Client.toPublic ∧
    (getAllClients sampleDb 3 10 none none).2.2.totalPages =
      (sampleDb.filter (matchesClientFilters none none)).length ⌈/⌉ 10 :=
  ⟨(c8_pagination.1 sampleDb 3 10 none none (by decide) (by decide)).1,
   (c8_pagination.1 sampleDb 3 10 none none (by decide) (by decide)).2.2.1⟩

/-- C9 (code bug evidence): for a stored client with a syntactically
valid identifier, the `/reservations/client/:clientId` route still
answers the 400 validation-error response, because `validateId` checks
the absent `id` parameter; the controller behind the middleware would
answer 200 on the same input. -/
theorem c9_client_reservations_route_rejected :
    isValidObjectId oidA = true ∧
    storeAnaPend.clients.any (fun c => c.id == oidA) = true ∧
    (clientReservationsRoute storeAnaPend oidA none 1 10).1 = validationErrorsResp ∧
    (getReservationsByClient storeAnaPend oidA none 1 10).1.status = 200 := by
  decide

/-- C10: when the application-level email pre-check passes but the
store write itself throws the duplicate-key error (code 11000), both
client create and client update answer the very duplicate-email 400
used by the pre-check — not a 500 — and leave the collection unchanged. -/
theorem c10_duplicate_key_mapping (db : List Client) (newId : String)
    (now : Nat) (body : CreateClientBody) (id : String)
    (patch : ClientPatch) (e : JsError)
    (hcode : e.code = some 11000)
    (hpre : ∀ c ∈ db, c.email ≠ body.email)
    (hid : isValidObjectId id = true)
    (hconf : updateEmailConflict db id patch = false) :
    (createClient db newId now body (some e)).1 = dupEmailResp ∧
    (createClient db newId now body (some e)).2 = db ∧
    (updateClient db id patch (some e)).1 = dupEmailResp ∧
    (updateClient db id patch (some e)).2.1 = db := by
  have hfind : db.find? (fun c => c.email == body.email) = none := by
    rw [List.find?_eq_none]
    intro c hc
    simp [hpre c hc]
  refine ⟨?_, ?_, ?_, ?_⟩
  · rw [createClient]; simp [hfind, hcode]
  · rw [createClient]; simp [hfind, hcode]
  · rw [updateClient]; simp [hid, hconf, hcode]
  · rw [updateClient]; simp [hid, hconf, hcode]

/-- Witness for C10: a concrete duplicate-key driver error thrown after
a passing pre-check, on both write paths. -/
theorem c10_duplicate_key_mapping_witness :
    (createClient [cAna] oidB 2
      { name := "Bob", email := "bob@x.com", password := "123456",
        phone := "+573000001", age := 30 }
      (some { code := some 11000, message := "E11000 duplicate key" })).1 =
      dupEmailResp ∧
    (updateClient [cAna] oidA { name := some "Ana R" }
      (some { code := some 11000, message := "E11000 duplicate key" })).1 =
      dupEmailResp :=
  ⟨(c10_duplicate_key_mapping [cAna] oidB 2
      { name := "Bob", email := "bob@x.com", password := "123456",
        phone := "+573000001", age := 30 } oidA { name := some "Ana R" }
      { code := some 11000, message := "E11000 duplicate key" }
      rfl (by decide) (by decide) (by decide)).1,
   (c10_duplicate_key_mapping [cAna] oidB 2
      { name := "Bob", email := "bob@x.com", password := "123456",
        phone := "+573000001", age := 30 } oidA { name := some "Ana R" }
      { code := some 11000, message := "E11000 duplicate key" }
      rfl (by decide) (by decide) (by decide)).2.2.1⟩

end Crud
